import Mathlib

/-!
Verification of the CompanyDB API (`src/main.py`) against its
natural-language specification.  The Python handlers are shallowly
embedded as executable Lean functions over an explicit relational
state (`DB`); each claim of the specification is then settled as a
theorem about those functions.
-/

namespace CompanyApi

/-! ## Data model

The five tables of the schema (§3 of the spec), as row structures.
`id` columns are SQL integers, modelled as `Int`. -/

structure EmployeeRow where
  id : Int
  first_name : String
  last_name : String
  position : String
  department_id : Int
  car_id : Int
deriving Repr, DecidableEq

structure DepartmentRow where
  id : Int
  name : String
deriving Repr, DecidableEq

structure CarRow where
  id : Int
  brand : String
  model : String
deriving Repr, DecidableEq

structure EmployeeSeriesRow where
  employee_id : Int
  series_id : Int
deriving Repr, DecidableEq

/-- The database state visible to one request: the four tables the
claims touch (the `series` table itself is not needed by any claim). -/
structure DB where
  employees : List EmployeeRow
  departments : List DepartmentRow
  cars : List CarRow
  employee_series : List EmployeeSeriesRow
deriving Repr, DecidableEq

/-! ## Generic string and list helpers (executable, kernel-reducible) -/

/-- Lexicographic `≤` on character lists, used to model SQL `ORDER BY`
on text columns. -/
def strLeAux : List Char → List Char → Bool
  | [], _ => true
  | _ :: _, [] => false
  | a :: as, b :: bs => if a = b then strLeAux as bs else decide (a < b)

def strLe (a b : String) : Bool := strLeAux a.toList b.toList

/-- Insert `x` into a list keeping it sorted w.r.t. `le`. -/
def insertSorted (le : α → α → Bool) (x : α) : List α → List α
  | [] => [x]
  | y :: ys => if le x y then x :: y :: ys else y :: insertSorted le x ys

/-- Structural insertion sort; models the row ordering produced by a
SQL `ORDER BY` (the spec notes ties are not explicitly broken, so any
order consistent with the comparator is faithful). -/
def sortByLe (le : α → α → Bool) : List α → List α
  | [] => []
  | x :: xs => insertSorted le x (sortByLe le xs)

theorem length_insertSorted (le : α → α → Bool) (x : α) (l : List α) :
    (insertSorted le x l).length = l.length + 1 := by
  induction l with
  | nil => rfl
  | cons y ys ih =>
    simp only [insertSorted]
    split <;> simp [ih]

theorem length_sortByLe (le : α → α → Bool) (l : List α) :
    (sortByLe le l).length = l.length := by
  induction l with
  | nil => rfl
  | cons x xs ih => simp [sortByLe, length_insertSorted, ih]

/-- Does `pat` occur as a contiguous substring of the given character
list? -/
def listOccurs (pat : List Char) : List Char → Bool
  | [] => pat.isEmpty
  | c :: cs => pat.isPrefixOf (c :: cs) || listOccurs pat cs

/-- Substring occurrence on strings (used to state that user input is
interpolated into SQL text). -/
def strOccurs (pat s : String) : Bool := listOccurs pat.toList s.toList

/-- `ceil(a / b)` on naturals, the pagination rounding the spec names. -/
def ceilDiv (a b : Nat) : Nat := (a + b - 1) / b

/-- `ceilDiv` really is the ceiling: it is the least `n` with
`a ≤ n * b` (for positive `b`). -/
theorem ceilDiv_spec (a b : Nat) (hb : 0 < b) :
    a ≤ ceilDiv a b * b ∧ ∀ n, a ≤ n * b → ceilDiv a b ≤ n := by
  constructor
  · rcases Nat.eq_zero_or_pos a with ha | ha
    · simp [ha]
    · have h1 : a + b - 1 = (a - 1) + b := by omega
      have h2 : (a + b - 1) / b = (a - 1) / b + 1 := by
        rw [h1, Nat.add_div_right _ hb]
      rw [ceilDiv, h2]
      have hdm := Nat.div_add_mod (a - 1) b
      have hmlt := Nat.mod_lt (a - 1) hb
      have h3 : ((a - 1) / b + 1) * b = b * ((a - 1) / b) + b := by ring
      omega
  · intro n hn
    rw [ceilDiv]
    have : a + b - 1 < (n + 1) * b := by
      have : (n + 1) * b = n * b + b := by ring
      omega
    have := (Nat.div_lt_iff_lt_mul hb).2 this
    omega

/-- Python `str.lower()` for ASCII text (list-based so that the kernel
can evaluate it). -/
def strLower (s : String) : String := ⟨s.toList.map Char.toLower⟩

/-- Python `str.upper()` for ASCII text, as applied to `sort_order`
(src/main.py:674,1371,1373). -/
def strUpper (s : String) : String := ⟨s.toList.map Char.toUpper⟩

/-- Case-insensitive substring match: models
`col ILIKE '%term%'` (the `%`/`_` wildcard metacharacters inside the
term itself are not modelled; no claim depends on them). -/
def strContainsCI (hay needle : String) : Bool :=
  listOccurs (strLower needle).toList (strLower hay).toList

/-! ## GET /employees — semantic model (src/main.py:564-743)

Pagination, filtering, sorting and the pagination metadata, exactly as
assembled by the handler. -/

/-- `valid_sort_fields` (src/main.py:624). -/
def employees_valid_sort_fields : List String :=
  ["id", "first_name", "last_name", "position", "department_id"]

/-- Truthiness of `department_id` in `if department_id:`
(src/main.py:661): a Python `Optional[int]` is truthy iff it is
present and nonzero. -/
def deptFilterActive : Option Int → Bool
  | none => false
  | some v => v != 0

/-- Truthiness of `search` in `if search:` (src/main.py:665): a Python
`Optional[str]` is truthy iff it is present and nonempty. -/
def searchFilterActive : Option String → Bool
  | none => false
  | some s => !s.isEmpty

/-- The WHERE predicate the handler builds from the two optional
filters (src/main.py:658-671); the same `conditions` list is reused by
the COUNT query (src/main.py:686-688). -/
def empMatch (department_id : Option Int) (search : Option String)
    (e : EmployeeRow) : Bool :=
  (if deptFilterActive department_id
   then e.department_id == department_id.getD 0
   else true) &&
  (if searchFilterActive search
   then strContainsCI e.first_name (search.getD "")
        || strContainsCI e.last_name (search.getD "")
   else true)

/-- Row comparator for `ORDER BY e.{sort_by}` (src/main.py:674). -/
def empLe (sort_by : String) (a b : EmployeeRow) : Bool :=
  if sort_by == "first_name" then strLe a.first_name b.first_name
  else if sort_by == "last_name" then strLe a.last_name b.last_name
  else if sort_by == "position" then strLe a.position b.position
  else if sort_by == "department_id" then decide (a.department_id ≤ b.department_id)
  else decide (a.id ≤ b.id)

/-- `ORDER BY e.{sort_by} {sort_order.upper()}`. -/
def empSorted (sort_by sort_order : String) (l : List EmployeeRow) :
    List EmployeeRow :=
  let asc := sortByLe (empLe sort_by) l
  if sort_order == "desc" then asc.reverse else asc

theorem length_empSorted (sort_by sort_order : String) (l : List EmployeeRow) :
    (empSorted sort_by sort_order l).length = l.length := by
  unfold empSorted
  split <;> simp [length_sortByLe]

/-- One row of the data query's result set: employee columns plus the
LEFT JOINed department name and car brand/model (src/main.py:641-654);
the joins are on the primary keys of `departments` and `cars`. -/
structure EmployeeListItem where
  id : Int
  first_name : String
  last_name : String
  position : String
  department_id : Int
  car_id : Int
  department_name : Option String
  car_brand : Option String
  car_model : Option String
deriving Repr, DecidableEq

def joinEmployee (db : DB) (e : EmployeeRow) : EmployeeListItem :=
  let d := db.departments.find? (fun dr => dr.id == e.department_id)
  let c := db.cars.find? (fun cr => cr.id == e.car_id)
  ⟨e.id, e.first_name, e.last_name, e.position, e.department_id, e.car_id,
    d.map (·.name), c.map (·.brand), c.map (·.model)⟩

/-- The `meta` object of the response (src/main.py:699-714), including
the echoed filters. -/
structure EmployeesMeta where
  page : Nat
  per_page : Nat
  total : Nat
  total_pages : Nat
  has_next : Bool
  has_prev : Bool
  filter_department_id : Option Int
  filter_search : Option String
deriving Repr, DecidableEq

inductive EmployeesResponse where
  | badRequest (detail : String)
  | ok (meta : EmployeesMeta) (data : List EmployeeListItem)
deriving Repr, DecidableEq

/-- The rows passing the WHERE conditions; the data query selects from
this set, and the COUNT query (src/main.py:686-693) counts exactly
this set, because it is built from the same `conditions` list. -/
def employeesFiltered (db : DB) (department_id : Option Int)
    (search : Option String) : List EmployeeRow :=
  db.employees.filter (empMatch department_id search)

/-- The data page: `ORDER BY … LIMIT :per_page OFFSET :(page-1)*per_page`
applied to the filtered rows, joined with the related tables. -/
def employeesPageRows (db : DB) (page per_page : Nat)
    (department_id : Option Int) (search : Option String)
    (sort_by sort_order : String) : List EmployeeListItem :=
  (((empSorted sort_by sort_order (employeesFiltered db department_id search)).drop
      ((page - 1) * per_page)).take per_page).map (joinEmployee db)

/-- `SELECT COUNT(*) FROM employees e` with the same WHERE conditions
(src/main.py:686-693, `or 0` included since a COUNT is never NULL). -/
def employeesTotal (db : DB) (department_id : Option Int)
    (search : Option String) : Nat :=
  (employeesFiltered db department_id search).length

/-- `total_pages = (total + per_page - 1) // per_page if total > 0 else 1`
(src/main.py:696). -/
def employeesTotalPages (total per_page : Nat) : Nat :=
  if total > 0 then (total + per_page - 1) / per_page else 1

/-- The GET /employees handler (src/main.py:575-736): validate
`sort_by`/`sort_order`, build the filtered, sorted, paginated data
query, run the COUNT query over the same `conditions`, and assemble the
pagination metadata.  `page ≥ 1` and `1 ≤ per_page ≤ 100` are enforced
upstream by the query-parameter binder (src/main.py:576-587). -/
def get_employees (db : DB) (page per_page : Nat)
    (department_id : Option Int) (search : Option String)
    (sort_by sort_order : String) : EmployeesResponse :=
  if !(employees_valid_sort_fields.contains sort_by) then
    .badRequest ("Invalid sort field. Valid options: "
      ++ String.intercalate ", " employees_valid_sort_fields)
  else if !((["asc", "desc"] : List String).contains sort_order) then
    .badRequest "Invalid sort order. Use 'asc' or 'desc'"
  else
    .ok
      { page := page
        per_page := per_page
        total := employeesTotal db department_id search
        total_pages := employeesTotalPages (employeesTotal db department_id search) per_page
        has_next := decide (page < employeesTotalPages (employeesTotal db department_id search) per_page)
        has_prev := decide (page > 1)
        filter_department_id := department_id
        filter_search := search }
      (employeesPageRows db page per_page department_id search sort_by sort_order)

/-! ## SQL text construction (for the sort-order validation claim)

The handlers assemble their SQL as Python string concatenation; these
functions reproduce that assembly (whitespace normalised to single
spaces).  What matters for the claims is which user-supplied strings
reach the SQL text, and when a 400 is raised instead. -/

/-- The fixed SELECT text of the GET /employees data query
(src/main.py:641-655). -/
def employees_select_sql : String :=
  "SELECT e.id, e.first_name, e.last_name, e.position, e.department_id, e.car_id, d.name as department_name, c.brand as car_brand, c.model as car_model FROM employees e LEFT JOIN departments d ON e.department_id = d.id LEFT JOIN cars c ON e.car_id = c.id"

/-- The `conditions` list (src/main.py:658-667). -/
def employeesConditions (department_id : Option Int) (search : Option String) :
    List String :=
  (if deptFilterActive department_id then ["e.department_id = :dept_id"] else [])
  ++ (if searchFilterActive search
      then ["(e.first_name ILIKE :search OR e.last_name ILIKE :search)"]
      else [])

/-- The SELECT plus its optional WHERE clause (src/main.py:669-671). -/
def employeesFilteredSQL (department_id : Option Int) (search : Option String) :
    String :=
  if (employeesConditions department_id search).isEmpty then employees_select_sql
  else employees_select_sql ++ " WHERE "
    ++ String.intercalate " AND " (employeesConditions department_id search)

/-- SQL text produced by GET /employees (src/main.py:623-677):
validation of `sort_by` and `sort_order` happens before any SQL is
built; the filters contribute parametrised WHERE conditions; `sort_by`
and `sort_order.upper()` are interpolated into the ORDER BY clause.
Errors are `(status, detail)` pairs. -/
def get_employees_sql (department_id : Option Int) (search : Option String)
    (sort_by sort_order : String) : Except (Nat × String) String :=
  if !(employees_valid_sort_fields.contains sort_by) then
    .error (400, "Invalid sort field. Valid options: "
      ++ String.intercalate ", " employees_valid_sort_fields)
  else if !((["asc", "desc"] : List String).contains sort_order) then
    .error (400, "Invalid sort order. Use 'asc' or 'desc'")
  else
    .ok (employeesFilteredSQL department_id search
      ++ " ORDER BY e." ++ sort_by ++ " " ++ strUpper sort_order
      ++ " LIMIT :limit OFFSET :offset")

/-- The fixed SELECT text of the GET /series query
(src/main.py:1339-1349). -/
def series_select_sql : String :=
  "SELECT s.id, s.title, s.rating, COUNT(es.employee_id) as fans_count, STRING_AGG(DISTINCT e.first_name || ' ' || e.last_name, ', ') as sample_fans FROM series s LEFT JOIN employee_series es ON s.id = es.series_id LEFT JOIN employees e ON es.employee_id = e.id"

/-- `valid_sort_fields` of GET /series (src/main.py:1331). -/
def series_valid_sort_fields : List String := ["rating", "title", "fans"]

/-- The rating `conditions` list (src/main.py:1351-1361): `is not None`
checks, so only the presence of each bound matters for the text. -/
def seriesConditions (min_rating max_rating : Option ℚ) : List String :=
  (if min_rating.isSome then ["s.rating >= :min_rating"] else [])
  ++ (if max_rating.isSome then ["s.rating <= :max_rating"] else [])

/-- SELECT, optional WHERE, and the GROUP BY (src/main.py:1363-1367). -/
def seriesGroupedSQL (min_rating max_rating : Option ℚ) : String :=
  (if (seriesConditions min_rating max_rating).isEmpty then series_select_sql
   else series_select_sql ++ " WHERE "
     ++ String.intercalate " AND " (seriesConditions min_rating max_rating))
  ++ " GROUP BY s.id, s.title, s.rating"

/-- SQL text produced by GET /series (src/main.py:1329-1375).  Only
`sort_by` is validated; `sort_order` is checked nowhere in this
handler, and `sort_order.upper()` is interpolated into the ORDER BY
clause for every value (src/main.py:1370-1373). -/
def get_series_sql (min_rating max_rating : Option ℚ)
    (sort_by sort_order : String) : Except (Nat × String) String :=
  if !(series_valid_sort_fields.contains sort_by) then
    .error (400, "Invalid sort field. Valid options: "
      ++ String.intercalate ", " series_valid_sort_fields)
  else
    .ok (if sort_by == "fans"
      then seriesGroupedSQL min_rating max_rating
        ++ " ORDER BY fans_count " ++ strUpper sort_order ++ ", s.rating DESC"
      else seriesGroupedSQL min_rating max_rating
        ++ " ORDER BY s." ++ sort_by ++ " " ++ strUpper sort_order)

def exceptIsOk : Except ε α → Bool
  | .ok _ => true
  | .error _ => false

/-! ## POST /employees (src/main.py:850-969) and the pydantic model
(src/main.py:194-238) -/

/-- A request body for POST /employees after JSON parsing (the five
fields of `EmployeeCreate`); also the type of the validated value, in
which the two name fields have been title-cased. -/
structure EmployeeCreate where
  first_name : String
  last_name : String
  position : String
  department_id : Int
  car_id : Int
deriving Repr, DecidableEq

def hasDigit (s : String) : Bool := s.toList.any (·.isDigit)

/-- Python `str.title()` for ASCII text: the first letter of each
maximal alphabetic run is upper-cased, the rest lower-cased
(src/main.py:234 uses `v.title()`). -/
def titleizeAux : Bool → List Char → List Char
  | _, [] => []
  | prevCased, c :: cs =>
    if c.isAlpha then
      (if prevCased then c.toLower else c.toUpper) :: titleizeAux true cs
    else
      c :: titleizeAux false cs

def titleize (s : String) : String := ⟨titleizeAux false s.toList⟩

/-- The `validate_name` validator on `first_name`/`last_name`
(src/main.py:229-234): reject any value containing a digit, otherwise
store the title-cased value. -/
def validate_name (v : String) : Except String String :=
  if hasDigit v then .error "name must not contain digits"
  else .ok (titleize v)

/-- Pydantic validation of the POST /employees body: the `Field`
length/positivity constraints (src/main.py:196-227) followed by the
`validate_name` validator on both name fields.  A failure anywhere is
surfaced as HTTP 422 before the handler runs. -/
def parse_employee_create (raw : EmployeeCreate) : Except String EmployeeCreate :=
  if !(2 ≤ raw.first_name.length && raw.first_name.length ≤ 50) then
    .error "first_name must be 2-50 characters"
  else if !(2 ≤ raw.last_name.length && raw.last_name.length ≤ 50) then
    .error "last_name must be 2-50 characters"
  else if !(raw.position.length ≤ 50) then
    .error "position must be at most 50 characters"
  else if !(0 < raw.department_id : Bool) then
    .error "department_id must be greater than 0"
  else if !(0 < raw.car_id : Bool) then
    .error "car_id must be greater than 0"
  else
    match validate_name raw.first_name, validate_name raw.last_name with
    | .ok f, .ok l => .ok { raw with first_name := f, last_name := l }
    | .error e, _ => .error e
    | _, .error e => .error e

inductive CreateResult where
  | created (row : EmployeeRow)
  | deptNotFound (department_id : Int)
  | carNotFound (car_id : Int)
deriving Repr, DecidableEq

/-- HTTP status of each handler outcome (src/main.py:852,884,901). -/
def createStatus : CreateResult → Nat
  | .created _ => 201
  | .deptNotFound _ => 400
  | .carNotFound _ => 400

/-- The create_employee handler body (src/main.py:861-969): check the
department FK, then the car FK, each miss raising a 400 naming the
missing id before any INSERT; on success insert the row (the
database-generated key is the `newId` parameter) and commit.  The
`except HTTPException: raise` clause (src/main.py:954-955) re-raises
the 400s unchanged, so they are never converted to 500. -/
def create_employee (db : DB) (emp : EmployeeCreate) (newId : Int) :
    CreateResult × DB :=
  match db.departments.find? (fun d => d.id == emp.department_id) with
  | none => (.deptNotFound emp.department_id, db)
  | some _ =>
    match db.cars.find? (fun c => c.id == emp.car_id) with
    | none => (.carNotFound emp.car_id, db)
    | some _ =>
      let row : EmployeeRow :=
        ⟨newId, emp.first_name, emp.last_name, emp.position,
          emp.department_id, emp.car_id⟩
      (.created row, { db with employees := db.employees ++ [row] })

inductive PostEmployeesResult where
  | validationError (msg : String)
  | handled (r : CreateResult)
deriving Repr, DecidableEq

def postStatus : PostEmployeesResult → Nat
  | .validationError _ => 422
  | .handled r => createStatus r

/-- The full POST /employees pipeline: pydantic validation (HTTP 422 on
failure, before the handler and hence before any SQL), then the
handler. -/
def post_employees (db : DB) (raw : EmployeeCreate) (newId : Int) :
    PostEmployeesResult × DB :=
  match parse_employee_create raw with
  | .error m => (.validationError m, db)
  | .ok emp =>
    let r := create_employee db emp newId
    (.handled r.1, r.2)

/-! ## DELETE /employees/{id} (src/main.py:971-1070)

The handler runs inside one request-scoped SQLAlchemy session
(`autocommit=False`, src/main.py:163-168): the two DELETE statements
are pending until the single `db.commit()` (src/main.py:1029), and the
`except` blocks call `db.rollback()` (src/main.py:1058,1065), which
discards all pending statements.  The session is modelled as a pair of
database states — the last committed state and the pending one. -/

structure PgSession where
  committed : DB
  pending : DB
deriving Repr, DecidableEq

def sessionBegin (db : DB) : PgSession := ⟨db, db⟩

def sessionExec (s : PgSession) (f : DB → DB) : PgSession :=
  { s with pending := f s.pending }

def sessionCommit (s : PgSession) : PgSession :=
  { s with committed := s.pending }

def sessionRollback (s : PgSession) : PgSession :=
  { s with pending := s.committed }

/-- The statements of the delete handler at which a database error
(`SQLAlchemyError`) may be raised. -/
inductive DelOp where
  | lookupOp
  | delSeriesOp
  | delEmpOp
  | commitOp
deriving Repr, DecidableEq

inductive DeleteResult where
  | deleted (id : Int) (name : String) (position : String)
      (department : Option String)
  | notFound (employee_id : Int)
  | dbError
deriving Repr, DecidableEq

/-- HTTP status of each delete outcome (src/main.py:977-978,1008,1061). -/
def deleteStatus : DeleteResult → Nat
  | .deleted _ _ _ _ => 200
  | .notFound _ => 404
  | .dbError => 500

/-- `DELETE FROM employee_series WHERE employee_id = :id`
(src/main.py:1018-1021), pending in the session. -/
def delSeriesStep (s : PgSession) (eid : Int) : PgSession :=
  sessionExec s (fun d =>
    { d with employee_series :=
        d.employee_series.filter (fun r => !(r.employee_id == eid)) })

/-- `DELETE FROM employees WHERE id = :id` (src/main.py:1024-1027),
pending in the session. -/
def delEmpStep (s : PgSession) (eid : Int) : PgSession :=
  sessionExec s (fun d =>
    { d with employees := d.employees.filter (fun r => !(r.id == eid)) })

/-- The delete_employee handler (src/main.py:980-1070): look the row up
(with its department name) to report what was deleted, 404 if absent;
delete the `employee_series` rows, delete the employee row, commit;
any `SQLAlchemyError` (injected here as `failAt`) reaches the `except`
block, which rolls the transaction back and returns 500.  The second
component of the result is the database state as committed when the
request finishes. -/
def delete_employee (db : DB) (eid : Int) (failAt : Option DelOp) :
    DeleteResult × DB :=
  if failAt == some .lookupOp then
    (.dbError, (sessionRollback (sessionBegin db)).committed)
  else
    match (sessionBegin db).pending.employees.find? (fun e => e.id == eid) with
    | none => (.notFound eid, (sessionBegin db).committed)
    | some e =>
      if failAt == some .delSeriesOp then
        (.dbError, (sessionRollback (sessionBegin db)).committed)
      else if failAt == some .delEmpOp then
        (.dbError, (sessionRollback (delSeriesStep (sessionBegin db) eid)).committed)
      else if failAt == some .commitOp then
        (.dbError,
         (sessionRollback (delEmpStep (delSeriesStep (sessionBegin db) eid) eid)).committed)
      else
        (.deleted eid (e.first_name ++ " " ++ e.last_name) e.position
          ((db.departments.find? (fun dr => dr.id == e.department_id)).map (·.name)),
         (sessionCommit (delEmpStep (delSeriesStep (sessionBegin db) eid) eid)).committed)

/-- The database state after a fully successful delete: both the join
rows and the employee row are gone. -/
def deletedState (db : DB) (eid : Int) : DB :=
  { db with
    employee_series := db.employee_series.filter (fun r => !(r.employee_id == eid))
    employees := db.employees.filter (fun r => !(r.id == eid)) }

/-! ## PATCH /employees/{id} — modelled from the spec

Modelled from the spec: no PATCH handler exists anywhere in
`src/main.py`; the behaviour below follows §4.4 ("Partial update
accepts a sparse set of fields, rejects an empty update body,
re-validates only the FKs actually being changed, and builds an UPDATE
statement whose SET list is exactly the supplied fields — column names
must come only from an allow-listed field set") and the §6 row
"PATCH /employees/{id} … 200 updated row | 400 empty body / 404". -/

structure EmployeePatch where
  first_name : Option String
  last_name : Option String
  position : Option String
  department_id : Option Int
  car_id : Option Int
deriving Repr, DecidableEq

/-- The fixed allow-list of updatable columns (spec §4.4). -/
def patchAllowedFields : List String :=
  ["first_name", "last_name", "position", "department_id", "car_id"]

/-- The field names actually supplied in the sparse body. -/
def suppliedFields (p : EmployeePatch) : List String :=
  (if p.first_name.isSome then ["first_name"] else [])
  ++ (if p.last_name.isSome then ["last_name"] else [])
  ++ (if p.position.isSome then ["position"] else [])
  ++ (if p.department_id.isSome then ["department_id"] else [])
  ++ (if p.car_id.isSome then ["car_id"] else [])

/-- The SET clause of the generated UPDATE, one `col = :col` item per
supplied field. -/
def updateSetClause (cols : List String) : String :=
  String.intercalate ", " (cols.map (fun c => c ++ " = :" ++ c))

def applyPatch (p : EmployeePatch) (e : EmployeeRow) : EmployeeRow :=
  { e with
    first_name := p.first_name.getD e.first_name
    last_name := p.last_name.getD e.last_name
    position := p.position.getD e.position
    department_id := p.department_id.getD e.department_id
    car_id := p.car_id.getD e.car_id }

inductive PatchResult where
  | emptyBody
  | notFound (employee_id : Int)
  | fkMissing (field : String) (id : Int)
  | updated (row : EmployeeRow) (setCols : List String)
deriving Repr, DecidableEq

def patchStatus : PatchResult → Nat
  | .emptyBody => 400
  | .notFound _ => 404
  | .fkMissing _ _ => 400
  | .updated _ _ => 200

/-- Modelled from the spec: the PATCH /employees/{id} handler (absent
from src/).  Reject an empty body with 400 leaving the database
untouched; 404 on a missing row; re-validate only the FKs being
changed; otherwise update exactly the supplied fields, with the SET
column list drawn from the supplied (allow-listed) field names. -/
def patch_employee (db : DB) (eid : Int) (p : EmployeePatch) :
    PatchResult × DB :=
  if (suppliedFields p).isEmpty then
    (.emptyBody, db)
  else
    match db.employees.find? (fun e => e.id == eid) with
    | none => (.notFound eid, db)
    | some e =>
      if p.department_id.isSome
          && (db.departments.find? (fun d => d.id == p.department_id.getD 0)).isNone then
        (.fkMissing "department_id" (p.department_id.getD 0), db)
      else if p.car_id.isSome
          && (db.cars.find? (fun c => c.id == p.car_id.getD 0)).isNone then
        (.fkMissing "car_id" (p.car_id.getD 0), db)
      else
        (.updated (applyPatch p e) (suppliedFields p),
         { db with employees :=
             db.employees.map (fun r => if r.id == eid then applyPatch p r else r) })

/-! ## GET /health — per-table row counts (src/main.py:482-490) -/

inductive CountEntry where
  | cnt (n : Nat)
  | probeError
deriving Repr, DecidableEq

/-- The `for table in tables[:5]` loop body: `try` the COUNT, on any
exception store the string `"error"` for that table and continue with
the next one.  The abstract `probe` stands for
`db.execute(text(f"SELECT COUNT(*) FROM {table}")).scalar()`, with
`.error` for a raised exception. -/
def tableCountsLoop (probe : String → Except Unit Nat) :
    List String → List (String × CountEntry)
  | [] => []
  | t :: ts =>
    (t, match probe t with
        | .ok n => .cnt n
        | .error _ => .probeError) :: tableCountsLoop probe ts

/-- The bounded per-table sample of the health report: the first five
tables, each counted with inline error capture. -/
def health_sample_counts (probe : String → Except Unit Nat)
    (tables : List String) : List (String × CountEntry) :=
  tableCountsLoop probe (tables.take 5)

/-! ## Concrete data used by the witnesses -/

def dbEmpty : DB := ⟨[], [], [], []⟩

def empAnna : EmployeeRow := ⟨1, "Anna", "Petrova", "Manager", 1, 1⟩

def empBoris : EmployeeRow := ⟨2, "Boris", "Ivanov", "Tester", 2, 1⟩

def empVera : EmployeeRow := ⟨3, "Vera", "Sidorova", "Tester", 2, 1⟩

def dbSample : DB :=
  ⟨[empAnna, empBoris, empVera],
   [⟨1, "Sales"⟩, ⟨2, "QA"⟩],
   [⟨1, "Lada", "Vesta"⟩],
   [⟨1, 1⟩, ⟨2, 1⟩]⟩

/-- Projection of a listing response onto the parts claim C10 talks
about: the data rows and `meta.total` (everything except the echoed
filters and pagination bookkeeping). -/
def employeesDataAndTotal : EmployeesResponse → Option (Nat × List EmployeeListItem)
  | .ok m dat => some (m.total, dat)
  | .badRequest _ => none

/-! ## Claim C1 -/

/-- C1: for every GET /employees request, the COUNT query applies
exactly the same WHERE conditions (department filter and search
filter) as the data query: `meta.total` is the size of the employees
table filtered by the very predicate that produced the data page, so
`len(data) ≤ meta.total`, and `meta.total` is unchanged under any
other valid `page`/`per_page`. -/
theorem employees_count_query_consistent
    (db : DB) (page per_page page' per_page' : Nat)
    (d : Option Int) (s : Option String) (sb so : String)
    (m m' : EmployeesMeta) (dat dat' : List EmployeeListItem)
    (h : get_employees db page per_page d s sb so = .ok m dat)
    (h' : get_employees db page' per_page' d s sb so = .ok m' dat') :
    dat.length ≤ m.total ∧
    m.total = (db.employees.filter (empMatch d s)).length ∧
    m'.total = m.total := by
  unfold get_employees at h h'
  by_cases h1 : (!employees_valid_sort_fields.contains sb) = true
  · rw [if_pos h1] at h
    simp at h
  · rw [if_neg h1] at h h'
    by_cases h2 : (!(["asc", "desc"] : List String).contains so) = true
    · rw [if_pos h2] at h
      simp at h
    · rw [if_neg h2] at h h'
      injection h with hm hd
      injection h' with hm' hd'
      subst hm hd hm'
      refine ⟨?_, rfl, rfl⟩
      show (employeesPageRows db page per_page d s sb so).length ≤ employeesTotal db d s
      unfold employeesPageRows employeesTotal
      rw [List.length_map, List.length_take, List.length_drop, length_empSorted]
      omega

/-- Witness for C1 at a concrete database: page 1 and page 2 of
`dbSample` with `per_page = 2`. -/
theorem employees_count_query_consistent_witness :
    ([joinEmployee dbSample empAnna, joinEmployee dbSample empBoris].length
        ≤ (3 : Nat)) ∧
    (3 : Nat) = (dbSample.employees.filter (empMatch none none)).length ∧
    (3 : Nat) = (3 : Nat) := by
  have := employees_count_query_consistent dbSample 1 2 2 2 none none "id" "asc"
    ⟨1, 2, 3, 2, true, false, none, none⟩
    ⟨2, 2, 3, 2, false, true, none, none⟩
    [joinEmployee dbSample empAnna, joinEmployee dbSample empBoris]
    [joinEmployee dbSample empVera]
    (by decide) (by decide)
  exact this

/-! ## Claim C2 -/

/-- C2 counterexample: with an empty result set (`meta.total = 0`) and
valid parameters `page = 1`, `per_page = 20`, the code returns
`total_pages = 1`, but `ceil(0 / 20) = 0` — so
`total_pages == ceil(total / per_page)` fails at `total = 0`. -/
theorem employees_total_pages_zero_total_cex :
    get_employees dbEmpty 1 20 none none "id" "asc" =
      .ok ⟨1, 20, 0, 1, false, false, none, none⟩ [] ∧
    ceilDiv 0 20 = 0 ∧ (1 : Nat) ≠ ceilDiv 0 20 := by
  refine ⟨by decide, by decide, by decide⟩

/-- C2 (amended): for valid `page ≥ 1` and `per_page ∈ [1,100]`,
`meta.total_pages == max 1 (ceil(meta.total / per_page))` — that is,
the ceiling for `total > 0` but `1` (not `0`) when `total = 0` — and
`meta.has_next == (page < meta.total_pages)` for every total. -/
theorem employees_total_pages_formula
    (db : DB) (page per_page : Nat) (d : Option Int) (s : Option String)
    (sb so : String) (m : EmployeesMeta) (dat : List EmployeeListItem)
    (_hpage : 1 ≤ page) (hpp : 1 ≤ per_page) (_hppmax : per_page ≤ 100)
    (h : get_employees db page per_page d s sb so = .ok m dat) :
    m.total_pages = max 1 (ceilDiv m.total per_page) ∧
    m.has_next = decide (page < m.total_pages) := by
  unfold get_employees at h
  by_cases h1 : (!employees_valid_sort_fields.contains sb) = true
  · rw [if_pos h1] at h
    simp at h
  · rw [if_neg h1] at h
    by_cases h2 : (!(["asc", "desc"] : List String).contains so) = true
    · rw [if_pos h2] at h
      simp at h
    · rw [if_neg h2] at h
      injection h with hm hd
      subst hm hd
      refine ⟨?_, rfl⟩
      show employeesTotalPages (employeesTotal db d s) per_page
          = max 1 (ceilDiv (employeesTotal db d s) per_page)
      set N := employeesTotal db d s with hN
      unfold employeesTotalPages
      rcases Nat.eq_zero_or_pos N with h0 | h0
      · have hz : ceilDiv 0 per_page = 0 := by
          rw [ceilDiv]
          exact Nat.div_eq_of_lt (by omega)
        simp [h0, hz]
      · have hone : 1 ≤ ceilDiv N per_page := by
          rw [ceilDiv, Nat.one_le_div_iff hpp]
          omega
        rw [if_pos h0, Nat.max_eq_right hone]
        rfl

/-- Witness for C2 (amended) at a concrete database: the first page of
`dbSample` with `per_page = 2`. -/
theorem employees_total_pages_formula_witness :
    (⟨1, 2, 3, 2, true, false, none, none⟩ : EmployeesMeta).total_pages
        = max 1 (ceilDiv (⟨1, 2, 3, 2, true, false, none, none⟩ : EmployeesMeta).total 2) ∧
    (⟨1, 2, 3, 2, true, false, none, none⟩ : EmployeesMeta).has_next
        = decide (1 < (⟨1, 2, 3, 2, true, false, none, none⟩ : EmployeesMeta).total_pages) :=
  employees_total_pages_formula dbSample 1 2 none none "id" "asc"
    ⟨1, 2, 3, 2, true, false, none, none⟩
    [joinEmployee dbSample empAnna, joinEmployee dbSample empBoris]
    (by decide) (by decide) (by decide) (by decide)

/-! ## Claim C10 -/

/-- C10: `department_id = 0` is silently ignored by GET /employees:
the handler tests the filter value for Python truthiness, so the data
rows and `meta.total` with `department_id = 0` are identical to those
with no `department_id` parameter at all (not an empty result for a
nonexistent department 0). -/
theorem employees_department_id_zero_ignored
    (db : DB) (page per_page : Nat) (s : Option String) (sb so : String) :
    employeesDataAndTotal (get_employees db page per_page (some 0) s sb so)
      = employeesDataAndTotal (get_employees db page per_page none s sb so) := by
  have hf : employeesFiltered db (some 0) s = employeesFiltered db none s := by
    unfold employeesFiltered
    congr 1
  unfold get_employees
  by_cases h1 : (!employees_valid_sort_fields.contains sb) = true
  · rw [if_pos h1, if_pos h1]
  · rw [if_neg h1, if_neg h1]
    by_cases h2 : (!(["asc", "desc"] : List String).contains so) = true
    · rw [if_pos h2, if_pos h2]
    · rw [if_neg h2, if_neg h2]
      simp only [employeesDataAndTotal, Option.some.injEq]
      unfold employeesTotal employeesPageRows
      rw [hf]

/-! ## Claim C3 -/

set_option maxRecDepth 4000 in
/-- C3 counterexample: GET /series performs no validation of
`sort_order` at all.  With the valid `sort_by = "rating"` and the
arbitrary `sort_order = "EVIL"` the handler raises no 400: it builds
and executes SQL whose text contains the user-supplied string `EVIL`
verbatim (`sort_order.upper()` interpolated into the ORDER BY
clause). -/
theorem series_sort_order_unvalidated_cex :
    exceptIsOk (get_series_sql none none "rating" "EVIL") = true ∧
    strOccurs "EVIL" ((get_series_sql none none "rating" "EVIL").toOption.getD "")
      = true ∧
    (["asc", "desc"] : List String).contains "EVIL" = false := by
  refine ⟨by decide, by decide, by decide⟩

/-- C3 (amended): GET /employees does reject every `sort_order`
outside {asc, desc} with a 400 before any SQL is built (whatever the
`sort_by`); but GET /series never validates `sort_order` — for every
valid `sort_by` it produces SQL (no 400) with the upper-cased
user-supplied `sort_order` interpolated into the ORDER BY clause. -/
theorem sort_order_validation_amended
    (d : Option Int) (s : Option String) (mr xr : Option ℚ)
    (sbE sbS so : String)
    (hso : (["asc", "desc"] : List String).contains so = false)
    (hsbS : series_valid_sort_fields.contains sbS = true) :
    (∃ msg, get_employees_sql d s sbE so = .error (400, msg)) ∧
    (∃ a b, get_series_sql mr xr sbS so = .ok (a ++ (strUpper so ++ b))) := by
  constructor
  · unfold get_employees_sql
    by_cases h1 : (!employees_valid_sort_fields.contains sbE) = true
    · rw [if_pos h1]
      exact ⟨_, rfl⟩
    · rw [if_neg h1, if_pos (by rw [hso]; rfl)]
      exact ⟨_, rfl⟩
  · unfold get_series_sql
    rw [if_neg (by rw [hsbS]; decide)]
    by_cases hf : (sbS == "fans") = true
    · refine ⟨seriesGroupedSQL mr xr ++ " ORDER BY fans_count ",
        ", s.rating DESC", ?_⟩
      rw [if_pos hf, String.append_assoc]
    · refine ⟨seriesGroupedSQL mr xr ++ " ORDER BY s." ++ sbS ++ " ", "", ?_⟩
      rw [if_neg hf, String.append_empty]

/-- Witness for C3 (amended) at `sort_order = "bogus"`,
`sort_by = "title"`. -/
theorem sort_order_validation_amended_witness :
    (∃ msg, get_employees_sql none none "id" "bogus" = .error (400, msg)) ∧
    (∃ a b, get_series_sql none none "title" "bogus"
        = .ok (a ++ (strUpper "bogus" ++ b))) :=
  sort_order_validation_amended none none none none "id" "title" "bogus"
    (by decide) (by decide)

/-! ## Claim C4 -/

/-- C4: DELETE /employees/{id} is transactional.  The employee_series
rows and the employee row are deleted inside one request-scoped
transaction with a single commit: when the request succeeds (HTTP 200)
the committed state has both deletions; when any database error occurs
at any of the statements (HTTP 500) the rollback leaves both tables —
indeed the whole database — unchanged, and a 404 also leaves it
unchanged.  No partially-deleted state is ever committed. -/
theorem delete_employee_transaction_atomic
    (db : DB) (eid : Int) (failAt : Option DelOp) :
    (deleteStatus (delete_employee db eid failAt).1 = 200 →
       (delete_employee db eid failAt).2 = deletedState db eid) ∧
    (deleteStatus (delete_employee db eid failAt).1 ≠ 200 →
       (delete_employee db eid failAt).2 = db) := by
  unfold delete_employee
  cases failAt with
  | none =>
    cases hfind : (sessionBegin db).pending.employees.find? (fun e => e.id == eid) with
    | none =>
      exact ⟨fun h => absurd (show (404 : Nat) = 200 from h) (by omega),
        fun _ => rfl⟩
    | some e => exact ⟨fun _ => rfl, fun h => absurd rfl h⟩
  | some op =>
    cases op with
    | lookupOp =>
      exact ⟨fun h => absurd (show (500 : Nat) = 200 from h) (by omega),
        fun _ => rfl⟩
    | delSeriesOp =>
      cases hfind : (sessionBegin db).pending.employees.find? (fun e => e.id == eid) with
      | none =>
        exact ⟨fun h => absurd (show (404 : Nat) = 200 from h) (by omega),
          fun _ => rfl⟩
      | some e =>
        exact ⟨fun h => absurd (show (500 : Nat) = 200 from h) (by omega),
          fun _ => rfl⟩
    | delEmpOp =>
      cases hfind : (sessionBegin db).pending.employees.find? (fun e => e.id == eid) with
      | none =>
        exact ⟨fun h => absurd (show (404 : Nat) = 200 from h) (by omega),
          fun _ => rfl⟩
      | some e =>
        exact ⟨fun h => absurd (show (500 : Nat) = 200 from h) (by omega),
          fun _ => rfl⟩
    | commitOp =>
      cases hfind : (sessionBegin db).pending.employees.find? (fun e => e.id == eid) with
      | none =>
        exact ⟨fun h => absurd (show (404 : Nat) = 200 from h) (by omega),
          fun _ => rfl⟩
      | some e =>
        exact ⟨fun h => absurd (show (500 : Nat) = 200 from h) (by omega),
          fun _ => rfl⟩

/-- Witness for C4: on `dbSample`, a failure at the employee DELETE
statement commits nothing, while the failure-free run commits exactly
the two deletions. -/
theorem delete_employee_transaction_atomic_witness :
    (delete_employee dbSample 1 (some DelOp.delEmpOp)).2 = dbSample ∧
    (delete_employee dbSample 1 none).2 = deletedState dbSample 1 :=
  ⟨(delete_employee_transaction_atomic dbSample 1 (some DelOp.delEmpOp)).2
      (by decide),
   (delete_employee_transaction_atomic dbSample 1 none).1 (by decide)⟩

/-! ## Claim C5 -/

/-- C5: when the POST /employees body passes model validation but its
`department_id` matches no departments row, the handler answers 400
with the missing id named in the response (never 201), and the
database is unchanged — no employee row is inserted. -/
theorem create_employee_missing_department_400
    (db : DB) (emp : EmployeeCreate) (newId : Int)
    (h : db.departments.find? (fun d => d.id == emp.department_id) = none) :
    create_employee db emp newId = (.deptNotFound emp.department_id, db) ∧
    createStatus (create_employee db emp newId).1 = 400 ∧
    createStatus (create_employee db emp newId).1 ≠ 201 := by
  have h1 : create_employee db emp newId = (.deptNotFound emp.department_id, db) := by
    unfold create_employee
    rw [h]
  refine ⟨h1, ?_, ?_⟩
  · rw [h1]
    rfl
  · rw [h1]
    exact fun hcon => absurd (show (400 : Nat) = 201 from hcon) (by omega)

def empReqNoDept : EmployeeCreate := ⟨"Ivan", "Petrov", "QA", 99, 1⟩

/-- Witness for C5: department 99 does not exist in `dbSample`. -/
theorem create_employee_missing_department_400_witness :
    create_employee dbSample empReqNoDept 10 = (.deptNotFound 99, dbSample) ∧
    createStatus (create_employee dbSample empReqNoDept 10).1 = 400 ∧
    createStatus (create_employee dbSample empReqNoDept 10).1 ≠ 201 :=
  create_employee_missing_department_400 dbSample empReqNoDept 10 (by decide)

/-! ## Claim C6 -/

theorem find?_deleted_none (l : List EmployeeRow) (eid : Int) :
    (l.filter (fun r => !(r.id == eid))).find? (fun r => r.id == eid) = none := by
  rw [List.find?_eq_none]
  intro x hx
  have h := (List.mem_filter.mp hx).2
  simp at h ⊢
  exact h

/-- C6: DELETE /employees/{id} returns 200 with a snapshot of the
deleted row (name, position, department) when the employee exists,
and 404 when it does not; deleting the same id twice therefore yields
200 then 404, and deleting a nonexistent id is a 404 that leaves the
database unchanged, not a no-op 200. -/
theorem delete_employee_200_then_404 (db : DB) (eid : Int) :
    (∀ e, db.employees.find? (fun r => r.id == eid) = some e →
       delete_employee db eid none =
         (.deleted eid (e.first_name ++ " " ++ e.last_name) e.position
            ((db.departments.find? (fun dr => dr.id == e.department_id)).map (·.name)),
          deletedState db eid) ∧
       deleteStatus (delete_employee db eid none).1 = 200 ∧
       (delete_employee (delete_employee db eid none).2 eid none).1
           = .notFound eid ∧
       deleteStatus (delete_employee (delete_employee db eid none).2 eid none).1
           = 404) ∧
    (db.employees.find? (fun r => r.id == eid) = none →
       delete_employee db eid none = (.notFound eid, db) ∧
       deleteStatus (delete_employee db eid none).1 = 404) := by
  constructor
  · intro e hfind
    have hfind' : (sessionBegin db).pending.employees.find? (fun r => r.id == eid)
        = some e := hfind
    have hrun : delete_employee db eid none =
        (.deleted eid (e.first_name ++ " " ++ e.last_name) e.position
           ((db.departments.find? (fun dr => dr.id == e.department_id)).map (·.name)),
         deletedState db eid) := by
      unfold delete_employee
      rw [if_neg (by decide), hfind']
      rfl
    have hfind2 : (sessionBegin (deletedState db eid)).pending.employees.find?
        (fun r => r.id == eid) = none := find?_deleted_none db.employees eid
    have hrun2 : delete_employee (deletedState db eid) eid none
        = (.notFound eid, deletedState db eid) := by
      unfold delete_employee
      rw [if_neg (by decide), hfind2]
      rfl
    refine ⟨hrun, ?_, ?_, ?_⟩
    · rw [hrun]
      rfl
    · rw [hrun]
      show (delete_employee (deletedState db eid) eid none).1 = .notFound eid
      rw [hrun2]
    · rw [hrun]
      show deleteStatus (delete_employee (deletedState db eid) eid none).1 = 404
      rw [hrun2]
      rfl
  · intro hfind
    have hfind' : (sessionBegin db).pending.employees.find? (fun r => r.id == eid)
        = none := hfind
    have hrun : delete_employee db eid none = (.notFound eid, db) := by
      unfold delete_employee
      rw [if_neg (by decide), hfind']
      rfl
    refine ⟨hrun, ?_⟩
    rw [hrun]
    rfl

/-- Witness for C6: deleting employee 2 of `dbSample` returns 200 with
the snapshot "Boris Ivanov", Tester, QA; deleting again returns 404. -/
theorem delete_employee_200_then_404_witness :
    delete_employee dbSample 2 none =
      (.deleted 2 "Boris Ivanov" "Tester" (some "QA"), deletedState dbSample 2) ∧
    deleteStatus (delete_employee dbSample 2 none).1 = 200 ∧
    (delete_employee (delete_employee dbSample 2 none).2 2 none).1
        = .notFound 2 ∧
    deleteStatus (delete_employee (delete_employee dbSample 2 none).2 2 none).1
        = 404 :=
  (delete_employee_200_then_404 dbSample 2).1 empBoris (by decide)

/-! ## Claim C7 -/

theorem validate_name_ok (v r : String) (h : validate_name v = .ok r) :
    r = titleize v ∧ hasDigit v = false := by
  unfold validate_name at h
  by_cases hd : hasDigit v = true
  · rw [if_pos hd] at h
    exact absurd h (by simp)
  · rw [if_neg hd] at h
    injection h with h'
    exact ⟨h'.symm, by simpa using hd⟩

theorem parse_employee_create_ok (raw emp : EmployeeCreate)
    (h : parse_employee_create raw = .ok emp) :
    emp.first_name = titleize raw.first_name ∧
    emp.last_name = titleize raw.last_name ∧
    hasDigit raw.first_name = false ∧ hasDigit raw.last_name = false := by
  unfold parse_employee_create at h
  by_cases h1 : (!(2 ≤ raw.first_name.length && raw.first_name.length ≤ 50)) = true
  · rw [if_pos h1] at h
    exact absurd h (by simp)
  · rw [if_neg h1] at h
    by_cases h2 : (!(2 ≤ raw.last_name.length && raw.last_name.length ≤ 50)) = true
    · rw [if_pos h2] at h
      exact absurd h (by simp)
    · rw [if_neg h2] at h
      by_cases h3 : (!(raw.position.length ≤ 50 : Bool)) = true
      · rw [if_pos h3] at h
        exact absurd h (by simp)
      · rw [if_neg h3] at h
        by_cases h4 : (!(0 < raw.department_id : Bool)) = true
        · rw [if_pos h4] at h
          exact absurd h (by simp)
        · rw [if_neg h4] at h
          by_cases h5 : (!(0 < raw.car_id : Bool)) = true
          · rw [if_pos h5] at h
            exact absurd h (by simp)
          · rw [if_neg h5] at h
            cases hf : validate_name raw.first_name with
            | error e =>
              rw [hf] at h
              exact absurd h (by simp)
            | ok f =>
              rw [hf] at h
              cases hl : validate_name raw.last_name with
              | error e =>
                rw [hl] at h
                exact absurd h (by simp)
              | ok l =>
                rw [hl] at h
                injection h with hemp
                subst hemp
                obtain ⟨hf1, hf2⟩ := validate_name_ok _ _ hf
                obtain ⟨hl1, hl2⟩ := validate_name_ok _ _ hl
                subst hf1
                subst hl1
                exact ⟨rfl, rfl, hf2, hl2⟩

/-- C7: if the submitted `first_name` or `last_name` contains a digit,
POST /employees is rejected by the pydantic validator with HTTP 422
and the database is untouched; and every row the endpoint does store
carries the title-cased forms of the submitted names. -/
theorem employee_name_digit_422_and_titlecase
    (db : DB) (raw : EmployeeCreate) (newId : Int) :
    ((hasDigit raw.first_name || hasDigit raw.last_name) = true →
       postStatus (post_employees db raw newId).1 = 422 ∧
       (post_employees db raw newId).2 = db) ∧
    (∀ row db2, post_employees db raw newId = (.handled (.created row), db2) →
       row.first_name = titleize raw.first_name ∧
       row.last_name = titleize raw.last_name ∧
       row ∈ db2.employees) := by
  cases hp : parse_employee_create raw with
  | error m =>
    constructor
    · intro _
      unfold post_employees
      rw [hp]
      exact ⟨rfl, rfl⟩
    · intro row db2 hrow
      unfold post_employees at hrow
      rw [hp] at hrow
      injection hrow with hr1 hr2
      exact absurd hr1 (by simp)
  | ok emp =>
    have hok := parse_employee_create_ok raw emp hp
    constructor
    · intro hdig
      exfalso
      rw [hok.2.2.1, hok.2.2.2] at hdig
      simp at hdig
    · intro row db2 hrow
      unfold post_employees at hrow
      rw [hp] at hrow
      injection hrow with hr1 hr2
      injection hr1 with hr1'
      unfold create_employee at hr1' hr2
      cases hdept : db.departments.find? (fun d => d.id == emp.department_id) with
      | none =>
        rw [hdept] at hr1'
        exact absurd hr1' (by simp)
      | some dd =>
        rw [hdept] at hr1' hr2
        cases hcar : db.cars.find? (fun c => c.id == emp.car_id) with
        | none =>
          rw [hcar] at hr1'
          exact absurd hr1' (by simp)
        | some cc =>
          rw [hcar] at hr1' hr2
          injection hr1' with hrow'
          subst hrow'
          subst hr2
          refine ⟨hok.1, hok.2.1, ?_⟩
          simp

def rawDigitBody : EmployeeCreate := ⟨"A1", "Bb", "QA", 1, 1⟩

def rawGoodBody : EmployeeCreate := ⟨"anna maria", "smith", "QA", 2, 1⟩

/-- Witness for C7: the body with `first_name = "A1"` is rejected with
422 leaving `dbSample` unchanged; the body with
`first_name = "anna maria"` is stored as "Anna Maria"/"Smith". -/
theorem employee_name_digit_422_and_titlecase_witness :
    (postStatus (post_employees dbSample rawDigitBody 10).1 = 422 ∧
     (post_employees dbSample rawDigitBody 10).2 = dbSample) ∧
    ((⟨10, "Anna Maria", "Smith", "QA", 2, 1⟩ : EmployeeRow).first_name
        = titleize rawGoodBody.first_name ∧
     (⟨10, "Anna Maria", "Smith", "QA", 2, 1⟩ : EmployeeRow).last_name
        = titleize rawGoodBody.last_name ∧
     (⟨10, "Anna Maria", "Smith", "QA", 2, 1⟩ : EmployeeRow) ∈
       (DB.mk [empAnna, empBoris, empVera, ⟨10, "Anna Maria", "Smith", "QA", 2, 1⟩]
         [⟨1, "Sales"⟩, ⟨2, "QA"⟩] [⟨1, "Lada", "Vesta"⟩]
         [⟨1, 1⟩, ⟨2, 1⟩]).employees) :=
  ⟨(employee_name_digit_422_and_titlecase dbSample rawDigitBody 10).1 (by decide),
   (employee_name_digit_422_and_titlecase dbSample rawGoodBody 10).2
     ⟨10, "Anna Maria", "Smith", "QA", 2, 1⟩
     (DB.mk [empAnna, empBoris, empVera, ⟨10, "Anna Maria", "Smith", "QA", 2, 1⟩]
       [⟨1, "Sales"⟩, ⟨2, "QA"⟩] [⟨1, "Lada", "Vesta"⟩]
       [⟨1, 1⟩, ⟨2, 1⟩])
     (by decide)⟩

/-! ## Claim C8 -/

theorem mem_suppliedFields_allowed (p : EmployeePatch) :
    ∀ c ∈ suppliedFields p, c ∈ patchAllowedFields := by
  intro c hc
  unfold suppliedFields at hc
  simp only [List.mem_append] at hc
  unfold patchAllowedFields
  rcases hc with ((((h | h) | h) | h) | h) <;>
    (split at h <;> simp_all)

/-- C8 (spec-modelled): PATCH /employees/{id} with an empty JSON body
returns 400 leaving the database unchanged — never a no-op 200; and
whenever an update is performed, the SET list of the generated UPDATE
contains exactly the supplied fields, every one of which belongs to
the fixed allow-list, so no unsanitized user input reaches the column
position of the SQL text. -/
theorem patch_employee_empty_body_and_allowlist
    (db : DB) (eid : Int) (p : EmployeePatch) :
    ((suppliedFields p).isEmpty = true →
       patch_employee db eid p = (.emptyBody, db) ∧
       patchStatus (patch_employee db eid p).1 = 400 ∧
       patchStatus (patch_employee db eid p).1 ≠ 200) ∧
    (∀ row cols db2, patch_employee db eid p = (.updated row cols, db2) →
       cols = suppliedFields p ∧
       updateSetClause cols = updateSetClause (suppliedFields p) ∧
       ∀ c ∈ cols, c ∈ patchAllowedFields) := by
  constructor
  · intro hempty
    have h1 : patch_employee db eid p = (.emptyBody, db) := by
      unfold patch_employee
      rw [if_pos hempty]
    refine ⟨h1, ?_, ?_⟩
    · rw [h1]
      rfl
    · rw [h1]
      exact fun hcon => absurd (show (400 : Nat) = 200 from hcon) (by omega)
  · intro row cols db2 h
    unfold patch_employee at h
    split at h
    · injection h with ha hb
      exact absurd ha (by simp)
    · split at h
      · injection h with ha hb
        exact absurd ha (by simp)
      · split at h
        · injection h with ha hb
          exact absurd ha (by simp)
        · split at h
          · injection h with ha hb
            exact absurd ha (by simp)
          · injection h with ha hb
            injection ha with harow hacols
            subst hacols
            exact ⟨rfl, rfl, mem_suppliedFields_allowed p⟩

def patchEmptyBody : EmployeePatch := ⟨none, none, none, none, none⟩

def patchPositionOnly : EmployeePatch := ⟨none, none, some "Lead", none, none⟩

/-- Witness for C8: the empty body is a 400 on `dbSample`; updating
only `position` of employee 1 produces a SET list of exactly
`["position"]`, inside the allow-list. -/
theorem patch_employee_empty_body_and_allowlist_witness :
    (patch_employee dbSample 1 patchEmptyBody = (.emptyBody, dbSample) ∧
     patchStatus (patch_employee dbSample 1 patchEmptyBody).1 = 400 ∧
     patchStatus (patch_employee dbSample 1 patchEmptyBody).1 ≠ 200) ∧
    (["position"] = suppliedFields patchPositionOnly ∧
     updateSetClause ["position"] = updateSetClause (suppliedFields patchPositionOnly) ∧
     ∀ c ∈ (["position"] : List String), c ∈ patchAllowedFields) :=
  ⟨(patch_employee_empty_body_and_allowlist dbSample 1 patchEmptyBody).1 (by decide),
   (patch_employee_empty_body_and_allowlist dbSample 1 patchPositionOnly).2
     ⟨1, "Anna", "Petrova", "Lead", 1, 1⟩ ["position"]
     (DB.mk [⟨1, "Anna", "Petrova", "Lead", 1, 1⟩, empBoris, empVera]
       [⟨1, "Sales"⟩, ⟨2, "QA"⟩] [⟨1, "Lada", "Vesta"⟩]
       [⟨1, 1⟩, ⟨2, 1⟩])
     (by decide)⟩

/-! ## Claim C9 -/

/-- C9: the GET /health per-table row-count loop is resilient: the
sample has at most 5 tables, and every table of the sample gets its
own entry — a count when its probe succeeds, the inline error value
when its probe raises — independently of whether the probes of the
other tables fail.  A single failing table therefore never aborts the
report. -/
theorem health_check_per_table_errors_inline
    (probe : String → Except Unit Nat) (tables : List String) :
    (health_sample_counts probe tables).length ≤ 5 ∧
    ∀ t ∈ tables.take 5,
      (probe t = .error () →
        (t, CountEntry.probeError) ∈ health_sample_counts probe tables) ∧
      (∀ n, probe t = .ok n →
        (t, CountEntry.cnt n) ∈ health_sample_counts probe tables) := by
  have hlen : ∀ l : List String, (tableCountsLoop probe l).length = l.length := by
    intro l
    induction l with
    | nil => rfl
    | cons a as ih => simp [tableCountsLoop, ih]
  have hmem : ∀ (l : List String) (t : String), t ∈ l →
      (t, match probe t with
          | .ok n => CountEntry.cnt n
          | .error _ => CountEntry.probeError) ∈ tableCountsLoop probe l := by
    intro l
    induction l with
    | nil =>
      intro t ht
      cases ht
    | cons a as ih =>
      intro t ht
      rcases List.mem_cons.mp ht with rfl | hmem'
      · exact List.mem_cons_self _ _
      · exact List.mem_cons_of_mem _ (ih t hmem')
  constructor
  · rw [health_sample_counts, hlen]
    exact List.length_take_le 5 tables
  · intro t ht
    constructor
    · intro herr
      have hin := hmem (tables.take 5) t ht
      rw [herr] at hin
      exact hin
    · intro n hok
      have hin := hmem (tables.take 5) t ht
      rw [hok] at hin
      exact hin

/-- An example probe that fails only on the `cars` table. -/
def probeDemo : String → Except Unit Nat := fun t =>
  if t == "cars" then .error () else .ok t.length

/-- Witness for C9: with `cars` failing, the `cars` entry is the
inline error and the later `departments` table is still counted. -/
theorem health_check_per_table_errors_inline_witness :
    ("cars", CountEntry.probeError)
        ∈ health_sample_counts probeDemo ["employees", "cars", "departments"] ∧
    ("departments", CountEntry.cnt 11)
        ∈ health_sample_counts probeDemo ["employees", "cars", "departments"] :=
  ⟨((health_check_per_table_errors_inline probeDemo
        ["employees", "cars", "departments"]).2 "cars" (by decide)).1 rfl,
   ((health_check_per_table_errors_inline probeDemo
        ["employees", "cars", "departments"]).2 "departments" (by decide)).2 11 rfl⟩

end CompanyApi
